import Mathlib

/-!
Shallow embedding of the dynamic system prompt manager
(`refactored_manager.py` and `manager.py`).

Times (`time.time()` values, `st_mtime` values) are modelled as rationals;
Python `int(x)` (truncation toward zero) is `pyInt`.  Filesystem effects are
made explicit: the static document is an `Option FileState` (absent or
present with an mtime and contents), and fallible operations take a boolean
saying whether the underlying I/O call succeeds on this invocation.
-/

namespace DSPM

/-- Python `int(x)` on a real-valued argument: truncation toward zero. -/
def pyInt (q : ℚ) : ℤ := if 0 ≤ q then ⌊q⌋ else ⌈q⌉

/-- The metrics dictionary `{"timestamp": ..., "conversation_length": ...}`
kept by `MetricsCollector`. -/
structure Snapshot where
  timestamp : ℚ
  conversation_length : ℤ
deriving DecidableEq, Repr

/-- The state of a `MetricsCollector`: `self._start` and `self._latest`. -/
structure CollectorState where
  start : ℚ
  latest : Snapshot
deriving DecidableEq, Repr

/-- `MetricsCollector.__init__`: `_start = time.time()` and
`_latest = {"conversation_length": 0, "timestamp": self._start}`. -/
def initCollector (start : ℚ) : CollectorState :=
  { start := start, latest := { timestamp := start, conversation_length := 0 } }

/-- One body of the loop in `MetricsCollector._tick`: with `now = time.time()`,
`self._latest.update(timestamp=now, conversation_length=int(now - self._start))`.
The two fields are written inside one synchronous critical section (there is
no suspension point between them), so the update is one atomic step. -/
def tick (now : ℚ) (c : CollectorState) : CollectorState :=
  { c with latest := { timestamp := now, conversation_length := pyInt (now - c.start) } }

/-- `MetricsCollector.latest`: `return self._latest.copy()`. -/
def latest_copy (c : CollectorState) : Snapshot := c.latest

/-- An atomic event of the event loop: a sampler tick body (which runs
synchronously, hence without interleaving) or a `latest` read by the
publication loop. -/
inductive Event where
  | tick (now : ℚ)
  | snapshot
deriving DecidableEq, Repr

/-- Run an interleaving of sampler ticks and snapshot reads, collecting the
snapshots each read observes. -/
def runTrace : CollectorState → List Event → CollectorState × List Snapshot
  | c, [] => (c, [])
  | c, Event.tick now :: es => runTrace (tick now c) es
  | c, Event.snapshot :: es =>
      let r := runTrace c es
      (r.1, latest_copy c :: r.2)

/-- A snapshot that was published as one unit: either the pair installed by
`__init__`, or the pair installed together by a single tick of the trace. -/
def publishedBy (start : ℚ) (es : List Event) (s : Snapshot) : Prop :=
  s = { timestamp := start, conversation_length := 0 } ∨
    ∃ now, Event.tick now ∈ es ∧
      s = { timestamp := now, conversation_length := pyInt (now - start) }

/-- The snapshots published by a pure run of tick bodies at clock values
`nows`, in order (`runTicks` threads the collector state through). -/
def runTicks : CollectorState → List ℚ → List Snapshot
  | _, [] => []
  | c, n :: ns => (tick n c).latest :: runTicks (tick n c) ns

/-- `PromptConfig` from `refactored_manager.py` (the configuration dictionary
of `manager.py`). -/
structure PromptConfig where
  long_convo_addition : String
  short_convo_addition : String
deriving DecidableEq, Repr

/-- `PromptElementProvider.get_prompt_elements`: pick the long fragment when
`conversation_length > 50`, the short one otherwise; an empty (falsy) fragment
yields no elements. -/
def get_prompt_elements (cfg : PromptConfig) (metrics : Snapshot) : List String :=
  let element :=
    if metrics.conversation_length > 50 then cfg.long_convo_addition
    else cfg.short_convo_addition
  if element = "" then [] else [element]

/-- The cache fields of `PromptManager`: `_cached_base` and `_cached_mtime`
(`self._cached_base = ""`, `self._cached_mtime = None` at construction). -/
structure CacheState where
  cached_base : String
  cached_mtime : Option ℚ
deriving DecidableEq, Repr

/-- `PromptManager.__init__` cache fields. -/
def initCache : CacheState := { cached_base := "", cached_mtime := none }

/-- The backing file when it exists: its `st_mtime` and its text. -/
structure FileState where
  st_mtime : ℚ
  content : String
deriving DecidableEq, Repr

/-- Outcome of one `_read_base_prompt` call: `result = none` means an
exception escaped; `state` is the cache afterwards; `fileReads` counts
full-content `read_text` attempts made during the call. -/
structure ReadResult where
  result : Option String
  state : CacheState
  fileReads : Nat
deriving DecidableEq, Repr

/-- `PromptManager._read_base_prompt`.  `fs` is the backing file (`none` when
`self.base_path.exists()` is false); `readOk` says whether the `read_text`
call, if reached, succeeds (when it raises, the exception propagates and no
cache field has been assigned yet). -/
def read_base_prompt (fs : Option FileState) (readOk : Bool) (st : CacheState) : ReadResult :=
  match fs with
  | none => { result := some "", state := st, fileReads := 0 }
  | some f =>
      if some f.st_mtime = st.cached_mtime then
        { result := some st.cached_base, state := st, fileReads := 0 }
      else if readOk then
        { result := some f.content
          state := { cached_base := f.content, cached_mtime := some f.st_mtime }
          fileReads := 1 }
      else
        { result := none, state := st, fileReads := 1 }

/-- `manager.py`'s `PromptManager.load_base_prompt`: every exception (missing
file included) is caught and turned into the empty string. -/
def load_base_prompt (fs : Option FileState) (readOk : Bool) : String :=
  match fs with
  | none => ""
  | some f => if readOk then f.content else ""

/-- `PromptManager._build_prompt` seen at the composition point: `dynamic` is
the fragments joined by newlines, and the artifact is the f-string
`"Timestamp: {ts}\n\n{dynamic}\n\nLength of Conversation: {n}\n\n{base}"`.
`fmt` stands for `time.strftime("%Y-%m-%d %H:%M:%S", time.localtime(·))`,
whose output depends on the host timezone and is kept abstract. -/
def build_prompt (fmt : ℚ → String) (metrics : Snapshot) (fragments : List String)
    (base : String) : String :=
  let dynamic := String.intercalate "\n" fragments
  "Timestamp: " ++ fmt metrics.timestamp ++ "\n\n" ++ dynamic ++ "\n\n" ++
    "Length of Conversation: " ++ toString metrics.conversation_length ++ "\n\n" ++ base

/-- The four ordered sections of the artifact, as the design document lists
them: timestamp line, fragment block, counter line, static text. -/
def artifactSections (fmt : ℚ → String) (metrics : Snapshot) (fragments : List String)
    (base : String) : List String :=
  ["Timestamp: " ++ fmt metrics.timestamp,
   String.intercalate "\n" fragments,
   "Length of Conversation: " ++ toString metrics.conversation_length,
   base]

/-- Join sections with exactly one blank line between each adjacent pair. -/
def joinSections : List String → String
  | [] => ""
  | [s] => s
  | s :: rest => s ++ "\n\n" ++ joinSections rest

/-- The state of the two output files: the current-artifact file and the
audit log (each modelled by its text contents). -/
structure OutState where
  out : String
  log : String
deriving DecidableEq, Repr

/-- The 80-dash separator line written after each audit log entry. -/
def sep_line : String := String.mk (List.replicate 80 '-')

/-- One audit log entry: `prompt_txt + "\n" + "-" * 80 + "\n"`. -/
def log_entry (prompt_txt : String) : String := prompt_txt ++ "\n" ++ sep_line ++ "\n"

/-- The concatenation of audit log entries for the artifacts `as`, in order
(what the design document calls "exactly N entries"). -/
def log_entries : List String → String
  | [] => ""
  | a :: as => log_entry a ++ log_entries as

/-- The write half of `refactored_manager.py`'s `PromptManager.write_prompt`
on a successful tick with composed artifact `a`: overwrite `out_path`, then
append the entry to `log_path`. -/
def write_prompt_pub (a : String) (s : OutState) : OutState :=
  { out := a, log := s.log ++ log_entry a }

/-- A run of successful publication ticks with composed artifacts `as`. -/
def publishAll : OutState → List String → OutState
  | s, [] => s
  | s, a :: as => publishAll (write_prompt_pub a s) as

/-- Which of a tick's three fallible I/O operations succeed: the cache
`read_text`, the artifact `write_text`, and the log append. -/
structure TickOutcome where
  readOk : Bool
  writeOk : Bool
  appendOk : Bool
deriving DecidableEq, Repr

/-- `refactored_manager.py`'s `write_prompt` with failure injection, for a
tick whose composed artifact is `a`.  A `read_text` failure escapes
`_build_prompt` before any write; a `write_text` failure escapes before the
log append; an append failure escapes after the artifact write.  The boolean
is true when the call returned normally. -/
def write_prompt_r (o : TickOutcome) (a : String) (s : OutState) : OutState × Bool :=
  if o.readOk = false then (s, false)
  else if o.writeOk = false then (s, false)
  else
    let s1 : OutState := { s with out := a }
    if o.appendOk = false then (s1, false)
    else ({ s1 with log := s1.log ++ log_entry a }, true)

/-- `refactored_manager.py`'s `periodic_update`: `try: while True:
self.write_prompt(); await sleep` with only `CancelledError` handled, so the
first exception out of `write_prompt` ends the loop and the remaining ticks
never run.  Returns the final file state and the number of ticks that
completed. -/
def periodic_update_r : OutState → List (TickOutcome × String) → OutState × Nat
  | s, [] => (s, 0)
  | s, (o, a) :: rest =>
      match write_prompt_r o a s with
      | (s2, true) =>
          let r := periodic_update_r s2 rest
          (r.1, r.2 + 1)
      | (s2, false) => (s2, 0)

/-- `manager.py`'s `PromptManager.save_system_prompt`: the artifact write and
the log append are each wrapped in their own `try/except Exception`, so a
failure in either is swallowed after being reported and the other still
runs. -/
def save_system_prompt (o : TickOutcome) (prompt : String) (s : OutState) : OutState :=
  let s1 := if o.writeOk then { s with out := prompt } else s
  if o.appendOk then { s1 with log := s1.log ++ log_entry prompt } else s1

/-- `manager.py`'s `periodic_update`: `update_prompt` cannot raise (every
fallible operation inside it catches its own exceptions), so the loop runs
every tick.  Each tick carries its I/O outcome and its composed artifact. -/
def periodic_update_m : OutState → List (TickOutcome × String) → OutState × Nat
  | s, [] => (s, 0)
  | s, (o, a) :: rest =>
      let r := periodic_update_m (save_system_prompt o a s) rest
      (r.1, r.2 + 1)

/-! ### Theorems -/

/-- C3: for every cache state (and whatever the outcome of a read would have
been), when the static document path does not exist, `_read_base_prompt`
returns the empty string and raises no exception. -/
theorem cache_missing_returns_empty (readOk : Bool) (st : CacheState) :
    (read_base_prompt none readOk st).result = some "" := rfl

/-- C2: when the file's mtime equals the cached `last_known_mtime`, the call
returns the cached text, performs no file read and leaves the cache as it
was; when the mtime differs (the initial `None` included), the call performs
exactly one full read, stores the new text and mtime, and returns the new
text. -/
theorem cache_mtime_check (f : FileState) (readOk : Bool) (st : CacheState) :
    (some f.st_mtime = st.cached_mtime →
      read_base_prompt (some f) readOk st =
        { result := some st.cached_base, state := st, fileReads := 0 }) ∧
    (some f.st_mtime ≠ st.cached_mtime →
      read_base_prompt (some f) true st =
        { result := some f.content
          state := { cached_base := f.content, cached_mtime := some f.st_mtime }
          fileReads := 1 }) := by
  constructor
  · intro h
    simp [read_base_prompt, h]
  · intro h
    simp [read_base_prompt, h]

/-- C2 witness: a hit at mtime 5 serves the cache without a read; a changed
mtime (even with byte-identical content) forces exactly one re-read. -/
theorem cache_mtime_check_witness :
    read_base_prompt (some { st_mtime := 5, content := "A" }) true
        { cached_base := "A", cached_mtime := some 5 } =
      { result := some "A", state := { cached_base := "A", cached_mtime := some 5 },
        fileReads := 0 } ∧
    read_base_prompt (some { st_mtime := 6, content := "A" }) true
        { cached_base := "A", cached_mtime := some 5 } =
      { result := some "A", state := { cached_base := "A", cached_mtime := some 6 },
        fileReads := 1 } :=
  ⟨(cache_mtime_check { st_mtime := 5, content := "A" } true
      { cached_base := "A", cached_mtime := some 5 }).1 (by decide),
   (cache_mtime_check { st_mtime := 6, content := "A" } true
      { cached_base := "A", cached_mtime := some 5 }).2 (by decide)⟩

/-- C4: when the existence check passes but the `read_text` call fails, the
exception propagates out of `_read_base_prompt` (no result is produced) and
both cache fields are exactly what they were before the call, so a later
call at the same state can retry and succeed. -/
theorem cache_read_failure_preserves_state (f : FileState) (st : CacheState)
    (h : some f.st_mtime ≠ st.cached_mtime) :
    read_base_prompt (some f) false st = { result := none, state := st, fileReads := 1 } ∧
    read_base_prompt (some f) true ((read_base_prompt (some f) false st).state) =
      { result := some f.content
        state := { cached_base := f.content, cached_mtime := some f.st_mtime }
        fileReads := 1 } := by
  constructor
  · simp [read_base_prompt, h]
  · simp [read_base_prompt, h]

/-- C4 witness: a failed read at mtime 2 over the initial cache leaves the
cache untouched, and the retry succeeds. -/
theorem cache_read_failure_preserves_state_witness :
    read_base_prompt (some { st_mtime := 2, content := "B" }) false initCache =
      { result := none, state := initCache, fileReads := 1 } ∧
    read_base_prompt (some { st_mtime := 2, content := "B" }) true
        ((read_base_prompt (some { st_mtime := 2, content := "B" }) false initCache).state) =
      { result := some "B"
        state := { cached_base := "B", cached_mtime := some 2 }
        fileReads := 1 } :=
  cache_read_failure_preserves_state { st_mtime := 2, content := "B" } initCache (by decide)

/-- C10: a call with the backing file absent leaves both cache fields
unchanged (only the return value is empty), and if a file then appears whose
mtime equals the retained `last_known_mtime`, the next call serves the
retained pre-deletion text without a file read. -/
theorem missing_file_preserves_cache (readOk readOk2 : Bool) (st : CacheState) (f : FileState) :
    (read_base_prompt none readOk st).state = st ∧
    (some f.st_mtime = st.cached_mtime →
      read_base_prompt (some f) readOk2 ((read_base_prompt none readOk st).state) =
        { result := some st.cached_base, state := st, fileReads := 0 }) := by
  refine ⟨rfl, fun h => ?_⟩
  simp [read_base_prompt, h]

/-- C10 witness: after a missing-file call over a cache holding "old" at
mtime 3, a reappearing file with mtime 3 is served from the cache. -/
theorem missing_file_preserves_cache_witness :
    (read_base_prompt none true { cached_base := "old", cached_mtime := some 3 }).state =
      { cached_base := "old", cached_mtime := some 3 } ∧
    read_base_prompt (some { st_mtime := 3, content := "new bytes" }) true
        ((read_base_prompt none true { cached_base := "old", cached_mtime := some 3 }).state) =
      { result := some "old", state := { cached_base := "old", cached_mtime := some 3 },
        fileReads := 0 } :=
  ⟨(missing_file_preserves_cache true true { cached_base := "old", cached_mtime := some 3 }
      { st_mtime := 3, content := "new bytes" }).1,
   (missing_file_preserves_cache true true { cached_base := "old", cached_mtime := some 3 }
      { st_mtime := 3, content := "new bytes" }).2 (by decide)⟩

/-- C6: `get_prompt_elements` returns the single long-conversation fragment
exactly when the counter exceeds 50, the single short-conversation fragment
otherwise, and the empty list when the chosen fragment's configured text is
empty; it is a pure function of its arguments. -/
theorem selector_threshold (cfg : PromptConfig) (metrics : Snapshot) :
    get_prompt_elements cfg metrics =
      (if metrics.conversation_length > 50 then
        (if cfg.long_convo_addition = "" then [] else [cfg.long_convo_addition])
      else
        (if cfg.short_convo_addition = "" then [] else [cfg.short_convo_addition])) ∧
    (metrics.conversation_length = 51 → cfg.long_convo_addition ≠ "" →
      get_prompt_elements cfg metrics = [cfg.long_convo_addition]) ∧
    (metrics.conversation_length = 50 → cfg.short_convo_addition ≠ "" →
      get_prompt_elements cfg metrics = [cfg.short_convo_addition]) := by
  refine ⟨?_, fun h51 hne => ?_, fun h50 hne => ?_⟩
  · by_cases hgt : metrics.conversation_length > 50 <;>
      simp [get_prompt_elements, hgt]
  · simp [get_prompt_elements, h51, hne]
  · simp [get_prompt_elements, h50, hne]

/-- C6 witness: with both fragments configured, counter 51 yields the long
fragment and counter 50 the short one; with empty fragments, nothing. -/
theorem selector_threshold_witness :
    get_prompt_elements { long_convo_addition := "L", short_convo_addition := "S" }
        { timestamp := 0, conversation_length := 51 } = ["L"] ∧
    get_prompt_elements { long_convo_addition := "L", short_convo_addition := "S" }
        { timestamp := 0, conversation_length := 50 } = ["S"] ∧
    get_prompt_elements { long_convo_addition := "", short_convo_addition := "" }
        { timestamp := 0, conversation_length := 0 } = [] :=
  ⟨(selector_threshold { long_convo_addition := "L", short_convo_addition := "S" }
      { timestamp := 0, conversation_length := 51 }).2.1 (by decide) (by decide),
   (selector_threshold { long_convo_addition := "L", short_convo_addition := "S" }
      { timestamp := 0, conversation_length := 50 }).2.2 (by decide) (by decide),
   by decide⟩

/-- C7: the composed artifact is exactly the four sections — timestamp line,
fragments joined by newlines, literal counter line, static text — in fixed
order, each adjacent pair separated by exactly one blank line, with the
static text verbatim and last (any trailing whitespace included). -/
theorem compose_four_sections (fmt : ℚ → String) (metrics : Snapshot)
    (fragments : List String) (base : String) :
    build_prompt fmt metrics fragments base =
      joinSections (artifactSections fmt metrics fragments base) ∧
    ∃ head, build_prompt fmt metrics fragments base = head ++ base := by
  constructor
  · simp only [build_prompt, artifactSections, joinSections, String.append_assoc]
  · exact ⟨_, rfl⟩

/-- C8: after a run of successful publication ticks with composed artifacts
`as`, the audit log is its previous contents (unchanged, append-only)
followed by one entry per tick in order, and the current-artifact file
equals the most recent composed artifact, each publish having fully
overwritten it. -/
theorem publish_append_log (s : OutState) (as : List String) :
    (publishAll s as).log = s.log ++ log_entries as ∧
    (∀ h : as ≠ [], (publishAll s as).out = as.getLast h) := by
  induction as generalizing s with
  | nil => exact ⟨by simp [publishAll, log_entries], fun h => absurd rfl h⟩
  | cons a as ih =>
      refine ⟨?_, fun h => ?_⟩
      · calc (publishAll s (a :: as)).log
            = (write_prompt_pub a s).log ++ log_entries as := (ih _).1
          _ = s.log ++ (log_entry a ++ log_entries as) := by
              simp [write_prompt_pub, String.append_assoc]
          _ = s.log ++ log_entries (a :: as) := rfl
      · cases as with
        | nil => rfl
        | cons b bs =>
            rw [List.getLast_cons (by simp)]
            exact (ih _).2 (by simp)

/-- C8 witness: two successful ticks append two separator-terminated entries
after the pre-existing log text and leave the second artifact current. -/
theorem publish_append_log_witness :
    (publishAll { out := "X", log := "L" } ["P1", "P2"]).log =
      "L" ++ log_entries ["P1", "P2"] ∧
    (publishAll { out := "X", log := "L" } ["P1", "P2"]).out = "P2" :=
  ⟨(publish_append_log { out := "X", log := "L" } ["P1", "P2"]).1,
   (publish_append_log { out := "X", log := "L" } ["P1", "P2"]).2 (by decide)⟩

/-- C5 counterexample: in `refactored_manager.py`, a single injected
`write_text` failure on tick 1 ends the periodic loop (only `CancelledError`
is caught), so tick 2 never runs: zero ticks complete and the log never
receives tick 2's entry, contrary to the claim that the loop proceeds and
tick k+1 succeeds. -/
theorem refactored_loop_stops_on_write_failure :
    periodic_update_r { out := "", log := "" }
        [({ readOk := true, writeOk := false, appendOk := true }, "A"),
         ({ readOk := true, writeOk := true, appendOk := true }, "B")] =
      ({ out := "", log := "" }, 0) := rfl

/-- C5 (amended): in `manager.py`'s loop every fallible operation catches its
own exceptions, so the loop completes every tick; a failed artifact write
leaves the artifact file unchanged, a failed log append leaves the log
unchanged, and each write succeeds or fails independently of the other — a
successful write always installs the artifact and a successful append always
appends exactly that tick's entry.  In `refactored_manager.py` the failure
instead terminates the loop (see the counterexample). -/
theorem manager_loop_failure_isolation (s : OutState) (ticks : List (TickOutcome × String)) :
    (periodic_update_m s ticks).2 = ticks.length ∧
    (∀ o : TickOutcome, ∀ a, o.writeOk = false → (save_system_prompt o a s).out = s.out) ∧
    (∀ o : TickOutcome, ∀ a, o.appendOk = false → (save_system_prompt o a s).log = s.log) ∧
    (∀ o : TickOutcome, ∀ a, o.writeOk = true → (save_system_prompt o a s).out = a) ∧
    (∀ o : TickOutcome, ∀ a, o.appendOk = true →
      (save_system_prompt o a s).log = s.log ++ log_entry a) := by
  refine ⟨?_, ?_, ?_, ?_, ?_⟩
  · induction ticks generalizing s with
    | nil => rfl
    | cons t ts ih => simp [periodic_update_m, ih]
  · intro o a h
    cases hap : o.appendOk <;> simp [save_system_prompt, h, hap]
  · intro o a h
    cases hw : o.writeOk <;> simp [save_system_prompt, h, hw]
  · intro o a h
    cases hap : o.appendOk <;> simp [save_system_prompt, h, hap]
  · intro o a h
    cases hw : o.writeOk <;> simp [save_system_prompt, h, hw]

/-- C5 (amended) witness: a two-tick run where tick 1's write fails still
completes both ticks; the failed write leaves the artifact file alone while
its log append lands, and tick 2 (all operations succeeding) publishes
normally. -/
theorem manager_loop_failure_isolation_witness :
    (periodic_update_m { out := "X", log := "L" }
        [({ readOk := true, writeOk := false, appendOk := true }, "A"),
         ({ readOk := true, writeOk := true, appendOk := true }, "B")]).2 = 2 ∧
    (save_system_prompt { readOk := true, writeOk := false, appendOk := true } "A"
        { out := "X", log := "L" }).out = "X" ∧
    (save_system_prompt { readOk := true, writeOk := false, appendOk := true } "A"
        { out := "X", log := "L" }).log = "L" ++ log_entry "A" ∧
    (save_system_prompt { readOk := true, writeOk := true, appendOk := true } "B"
        { out := "X", log := "L" }).out = "B" :=
  ⟨(manager_loop_failure_isolation { out := "X", log := "L" }
      [({ readOk := true, writeOk := false, appendOk := true }, "A"),
       ({ readOk := true, writeOk := true, appendOk := true }, "B")]).1,
   (manager_loop_failure_isolation { out := "X", log := "L" } []).2.1
      { readOk := true, writeOk := false, appendOk := true } "A" rfl,
   (manager_loop_failure_isolation { out := "X", log := "L" } []).2.2.2.2
      { readOk := true, writeOk := false, appendOk := true } "A" rfl,
   (manager_loop_failure_isolation { out := "X", log := "L" } []).2.2.2.1
      { readOk := true, writeOk := true, appendOk := true } "B" rfl⟩

/-- Helper: a tick of the sampler does not change `self._start`. -/
theorem tick_start (now : ℚ) (c : CollectorState) : (tick now c).start = c.start := rfl

/-- Helper: each published snapshot of a pure tick run pairs the tick's clock
value with the truncated elapsed time from that same clock value. -/
theorem runTicks_eq_map (c : CollectorState) (nows : List ℚ) :
    runTicks c nows =
      nows.map fun n => { timestamp := n, conversation_length := pyInt (n - c.start) } := by
  induction nows generalizing c with
  | nil => rfl
  | cons n ns ih => simp [runTicks, ih, tick]

/-- Helper: Python `int` truncation agrees with `floor` on non-negatives. -/
theorem pyInt_of_nonneg {q : ℚ} (h : 0 ≤ q) : pyInt q = ⌊q⌋ := if_pos h

/-- Helper: every snapshot a trace's reads observe satisfies any predicate
that holds of the starting published pair and of each tick's published
pair. -/
theorem runTrace_published (es : List Event) (c : CollectorState) (P : Snapshot → Prop)
    (hc : P c.latest)
    (ht : ∀ now, Event.tick now ∈ es →
      P { timestamp := now, conversation_length := pyInt (now - c.start) }) :
    ∀ s ∈ (runTrace c es).2, P s := by
  induction es generalizing c with
  | nil => intro s hs; simp [runTrace] at hs
  | cons e es ih =>
      cases e with
      | tick now =>
          intro s hs
          refine ih (tick now c) (ht now (List.mem_cons_self _ _))
            (fun m hm => ht m (List.mem_cons_of_mem _ hm)) s ?_
          exact hs
      | snapshot =>
          intro s hs
          have hs2 : s = latest_copy c ∨ s ∈ (runTrace c es).2 := List.mem_cons.mp hs
          rcases hs2 with rfl | hs2
          · exact hc
          · exact ih c hc (fun m hm => ht m (List.mem_cons_of_mem _ hm)) s hs2

/-- C1: over every interleaving of sampler tick bodies and `latest` reads,
each snapshot a reader observes is a pair that was published as one unit —
by initialization or by a single tick of the trace — never a timestamp of
one tick paired with a counter of another. -/
theorem snapshot_no_torn_read (start : ℚ) (es : List Event) (s : Snapshot)
    (hs : s ∈ (runTrace (initCollector start) es).2) :
    publishedBy start es s := by
  refine runTrace_published es (initCollector start) (publishedBy start es) (Or.inl rfl)
    (fun now hmem => Or.inr ⟨now, hmem, rfl⟩) s hs

/-- C1 witness: in the trace tick(3); read, the read observes the pair
(3, 3), which tick(3) published as one unit. -/
theorem snapshot_no_torn_read_witness :
    publishedBy 0 [Event.tick 3, Event.snapshot]
      { timestamp := 3, conversation_length := 3 } :=
  snapshot_no_torn_read 0 [Event.tick 3, Event.snapshot]
    { timestamp := 3, conversation_length := 3 }
    (by simp [runTrace, latest_copy, tick, initCollector, pyInt])

/-- C9: while the sampler runs (the clock readings are at or after the start
reading and non-decreasing), every published snapshot carries
`timestamp = now` and `derived_counter = floor(now - start)`; every published
counter is non-negative; and the published counters are monotonically
non-decreasing across ticks. -/
theorem counter_floor_monotone (start : ℚ) (nows : List ℚ)
    (h1 : ∀ n ∈ nows, start ≤ n) (h2 : nows.Chain' (· ≤ ·)) :
    runTicks (initCollector start) nows =
      nows.map (fun n => { timestamp := n, conversation_length := ⌊n - start⌋ }) ∧
    (∀ s ∈ runTicks (initCollector start) nows, 0 ≤ s.conversation_length) ∧
    ((runTicks (initCollector start) nows).map Snapshot.conversation_length).Chain'
      (· ≤ ·) := by
  have hmap : runTicks (initCollector start) nows =
      nows.map fun n => { timestamp := n, conversation_length := pyInt (n - start) } :=
    runTicks_eq_map (initCollector start) nows
  have hfl : runTicks (initCollector start) nows =
      nows.map fun n => { timestamp := n, conversation_length := ⌊n - start⌋ } := by
    rw [hmap, List.map_eq_map_iff]
    intro n hn
    rw [pyInt_of_nonneg (sub_nonneg.mpr (h1 n hn))]
  refine ⟨hfl, ?_, ?_⟩
  · intro s hs
    rw [hfl] at hs
    rcases List.mem_map.mp hs with ⟨n, hn, rfl⟩
    exact Int.floor_nonneg.mpr (sub_nonneg.mpr (h1 n hn))
  · rw [hfl, List.map_map]
    have : (Snapshot.conversation_length ∘ fun n =>
        Snapshot.mk n ⌊n - start⌋) = fun n : ℚ => ⌊n - start⌋ := rfl
    rw [this]
    exact List.chain'_map_of_chain' _ (fun a b hab => Int.floor_le_floor (by linarith)) h2

/-- C9 witness: with start reading 1 and clock readings 1, 2, 2, the
published snapshots are (1, 0), (2, 1), (2, 1): floors of elapsed time,
non-negative, non-decreasing. -/
theorem counter_floor_monotone_witness :
    runTicks (initCollector 1) [1, 2, 2] =
      ([1, 2, 2] : List ℚ).map
        (fun n => { timestamp := n, conversation_length := ⌊n - 1⌋ }) ∧
    (∀ s ∈ runTicks (initCollector 1) [1, 2, 2], 0 ≤ s.conversation_length) ∧
    ((runTicks (initCollector 1) [1, 2, 2]).map Snapshot.conversation_length).Chain'
      (· ≤ ·) :=
  counter_floor_monotone 1 [1, 2, 2] (by simp) (by simp [List.chain'_cons])

end DSPM
